import Mathlib

/-!
Verification of the bounded-model-checking pipeline excerpt: goto-instruction
validation (`code_assignt`), the C++ front-end `clean_up` pass, the
variable-sensitivity `struct_abstract_objectt` constructors, the SMT
struct-encoding of types, and the property-status bookkeeping of the
BMC utilities.
-/

/- ----------------------------------------------------------------- -/
/- Goto-instruction code: `code_assignt` (goto_instruction_code.h)    -/
/- ----------------------------------------------------------------- -/

/-- Statement / expression identifiers used by the goto-instruction layer. -/
inductive gi_irep_idt where
  | ID_assign
  | ID_dead
  | ID_function_call
  | ID_nil
  | ID_symbol
  | other (n : Nat)
deriving DecidableEq, Repr

/-- Types carried by goto-level expressions; `code_assignt::validate` only
compares them for structural equality. -/
inductive gi_typet where
  | signedbv (width : Nat)
  | unsignedbv (width : Nat)
  | boolT
  | codeT
  | other (n : Nat)
deriving DecidableEq, Repr

/-- A goto-level expression: an id together with its type (the only parts of
`exprt` that `code_assignt` inspects). -/
structure gi_exprt where
  id : gi_irep_idt
  type : gi_typet
deriving DecidableEq, Repr

/-- A `codet`: a statement id together with its operand list. -/
structure gi_codet where
  statement : gi_irep_idt
  operands : List gi_exprt
deriving DecidableEq, Repr

/-- Default nil expression, the value `op0`/`op1` produce when out of range. -/
def gi_nil_expr : gi_exprt := ⟨.ID_nil, .other 0⟩

/-- Operand accessor `op0`. -/
def gi_codet.op0 (c : gi_codet) : gi_exprt := c.operands.getD 0 gi_nil_expr

/-- Operand accessor `op1`. -/
def gi_codet.op1 (c : gi_codet) : gi_exprt := c.operands.getD 1 gi_nil_expr

/-- Constructor `code_assignt(lhs, rhs)`: statement `ID_assign` with the two
operands `lhs` and `rhs`. -/
def code_assignt (lhs rhs : gi_exprt) : gi_codet := ⟨.ID_assign, [lhs, rhs]⟩

/-- Default constructor `code_assignt()`: `operands().resize(2)` yields two
nil operands. -/
def code_assignt_default : gi_codet := ⟨.ID_assign, [gi_nil_expr, gi_nil_expr]⟩

/-- `DATA_CHECK(vm, cond, msg)` in `INVARIANT` mode: raises (models as an
error result) when the condition is violated. -/
def DATA_CHECK (cond : Bool) (msg : String) : Except String Unit :=
  if cond then .ok () else .error msg

/-- `code_assignt::check`: an assignment must have exactly two operands. -/
def code_assignt.check (code : gi_codet) : Except String Unit :=
  DATA_CHECK (decide (code.operands.length = 2))
    "assignment must have two operands"

/-- Definition of `code_assignt::validate`: runs `check`, then requires the
types of the two operands to agree. -/
def code_assignt.validate (code : gi_codet) : Except String Unit := do
  code_assignt.check code
  DATA_CHECK (decide (code.op0.type = code.op1.type))
    "lhs and rhs of assignment must have same type"

/- ----------------------------------------------------------------- -/
/- C++ front end: `cpp_typecheckt::clean_up` (cpp_typecheck.cpp)      -/
/- ----------------------------------------------------------------- -/

/-- Type identifiers inspected by `clean_up`. -/
inductive ct_type_idt where
  | ID_struct
  | ID_union
  | ID_code
  | ID_bool
  | other (n : Nat)
deriving DecidableEq, Repr

/-- A component of a struct/union type: its name, the id of its type, and the
`is_static` / `is_type` flags that `clean_up` reads. -/
structure ct_componentt where
  name : Nat
  type_id : ct_type_idt
  is_static : Bool
  is_type : Bool
deriving DecidableEq, Repr

/-- A struct/union type: its `components` and its `ID_methods` sub. -/
structure ct_struct_union_typet where
  components : List ct_componentt
  methods : List ct_componentt
deriving DecidableEq, Repr

/-- The loop body of `clean_up` over the component list: static and type
components are skipped, code-typed components are pushed onto the
function-member list, all others onto the data-member list. -/
def clean_up_components :
    List ct_componentt → List ct_componentt × List ct_componentt →
    List ct_componentt × List ct_componentt
  | [], acc => acc
  | c :: rest, (data, fns) =>
    if c.is_static || c.is_type then
      clean_up_components rest (data, fns)
    else if c.type_id = .ID_code then
      clean_up_components rest (data, fns ++ [c])
    else
      clean_up_components rest (data ++ [c], fns)

/-- The per-type effect of `clean_up` on a struct/union type: the component
list is split, the data members replace `components` (the final `swap`), and
the function members are appended to the `ID_methods` sub obtained by
`add(ID_methods)`. -/
def clean_up_struct_union (t : ct_struct_union_typet) : ct_struct_union_typet :=
  let acc := clean_up_components t.components ([], t.methods)
  ⟨acc.1, acc.2⟩

/-- The type of a symbol, as far as `clean_up` inspects it. -/
inductive ct_symbol_typet where
  | struct_union (su : ct_struct_union_typet)
  | other_type (n : Nat)
deriving DecidableEq, Repr

/-- A symbol-table entry: name, the `is_template` flag of its type, and its
type. -/
structure ct_symbolt where
  name : Nat
  is_template : Bool
  type : ct_symbol_typet
deriving DecidableEq, Repr

/-- Definition of `cpp_typecheckt::clean_up` over the symbol table: template
symbols and symbols with deferred typechecking are erased; struct/union
symbols get their component list split; all other symbols are untouched. -/
def clean_up (deferred : List Nat) (table : List ct_symbolt) : List ct_symbolt :=
  table.filterMap fun s =>
    if s.is_template = true ∨ s.name ∈ deferred then none
    else
      match s.type with
      | .struct_union su => some ⟨s.name, s.is_template, .struct_union (clean_up_struct_union su)⟩
      | t => some ⟨s.name, s.is_template, t⟩

/-- A component that `clean_up` keeps as a data member: non-static, non-type,
not code-typed. -/
def is_data_member (c : ct_componentt) : Bool :=
  !c.is_static && !c.is_type && !(c.type_id == .ID_code)

/-- A component that `clean_up` moves to the methods list: non-static,
non-type, code-typed. -/
def is_method_member (c : ct_componentt) : Bool :=
  !c.is_static && !c.is_type && (c.type_id == .ID_code)

/- ----------------------------------------------------------------- -/
/- Variable sensitivity: `struct_abstract_objectt` constructors       -/
/- (struct_abstract_object.cpp)                                       -/
/- ----------------------------------------------------------------- -/

/-- Type identifiers inspected by the `struct_abstract_objectt`
constructors. -/
inductive vs_idt where
  | ID_struct
  | ID_union
  | ID_signedbv
  | ID_bool
  | other (n : Nat)
deriving DecidableEq, Repr

/-- Types handed to `struct_abstract_objectt`; the constructors only read
their id. -/
inductive vs_typet where
  | structT (tag : Nat)
  | unionT (tag : Nat)
  | signedbvT (width : Nat)
  | boolT
  | otherT (n : Nat)
deriving DecidableEq, Repr

/-- The `id()` of a variable-sensitivity type. -/
def vs_typet.id : vs_typet → vs_idt
  | .structT _ => .ID_struct
  | .unionT _ => .ID_union
  | .signedbvT _ => .ID_signedbv
  | .boolT => .ID_bool
  | .otherT n => .other n

/-- A `constant_exprt`: a constant value together with its type. -/
structure vs_constant_exprt where
  type : vs_typet
  value : Nat
deriving DecidableEq, Repr

/-- An `abstract_objectt`: the represented type and the top/bottom flags. -/
structure abstract_objectt where
  t : vs_typet
  top : Bool
  bottom : Bool
deriving DecidableEq, Repr

/-- Constructor `struct_abstract_objectt(const typet &)`: calls the base
constructor, then `assert(t.id() == ID_struct)`; construction (modelled as an
`Option`, `none` on assertion failure) succeeds only for a struct type.
The initial top/bottom flags come from the base class, which is outside the
excerpt; they are irrelevant to the claims settled here. -/
def struct_abstract_objectt.from_type (t : vs_typet) : Option abstract_objectt :=
  if t.id = .ID_struct then some ⟨t, true, false⟩ else none

/-- Constructor `struct_abstract_objectt(const typet &, bool top, bool
bottom)`: the base constructor, documented in the source as asserting when
both `top` and `bottom` are true, runs first; then
`assert(t.id() == ID_struct)`. -/
def struct_abstract_objectt.from_type_top_bottom (t : vs_typet) (tp bttm : Bool) :
    Option abstract_objectt :=
  if ¬(tp = true ∧ bttm = true) ∧ t.id = .ID_struct then some ⟨t, tp, bttm⟩ else none

/-- Constructor `struct_abstract_objectt(const constant_exprt &)`: asserts
that the id of the expression's type is `ID_struct`. -/
def struct_abstract_objectt.from_expr (e : vs_constant_exprt) : Option abstract_objectt :=
  if e.type.id = .ID_struct then some ⟨e.type, false, false⟩ else none

/- ----------------------------------------------------------------- -/
/- SMT2 incremental back end: `struct_encodingt::encode`              -/
/- ----------------------------------------------------------------- -/

/-- Types handled by the struct encoding: scalar bit-vector types, named
struct types (`struct_tag_typet`, resolved through the symbol table) and
array types. Array sizes are kept as the constant size expressions the unit
tests use. -/
inductive enc_typet where
  | signedbv (width : Nat)
  | unsignedbv (width : Nat)
  | bv (width : Nat)
  | structTag (name : Nat)
  | arrayT (elem : enc_typet) (size : Nat)
deriving DecidableEq, Repr

/-- Whether a type is a struct type (the encoding flattens exactly these). -/
def enc_typet.is_struct : enc_typet → Bool
  | .structTag _ => true
  | _ => false

/-- The symbol table backing the namespace: a map from struct-type names to
their component lists (member name and member type). -/
abbrev enc_namespacet : Type := List (Nat × List (Nat × enc_typet))

/-- One level of symbol lookup, resolving a struct tag to its components. -/
def lookupComponents (ns : enc_namespacet) (name : Nat) :
    Option (List (Nat × enc_typet)) :=
  (List.find? (fun e => e.1 = name) ns).map (fun e => e.2)

/-- Bit width of an already-encoded (flat) type: the width of a bit-vector
type, and element width times size for an array of flat types. A struct tag
has no flat width. -/
def flatWidth : enc_typet → Option Nat
  | .signedbv w => some w
  | .unsignedbv w => some w
  | .bv w => some w
  | .arrayT e n => (flatWidth e).map (fun w => w * n)
  | .structTag _ => none

/-- Total width of the encodings of a member list: each member type is
encoded by `enc` and the widths of the encodings are summed. -/
def encoded_members_width (enc : enc_typet → Option enc_typet) :
    List (Nat × enc_typet) → Option Nat
  | [] => some 0
  | c :: rest =>
    match (enc c.2).bind flatWidth, encoded_members_width enc rest with
    | some w, some ws => some (w + ws)
    | _, _ => none

/-- Modelled from the spec: `struct_encodingt::encode` (its implementation,
`solvers/smt2_incremental/struct_encoding.cpp`, is not part of the excerpt;
only its unit tests are). Per the spec's Type Encoder contract: a
scalar/bit-vector type is returned unchanged; a named struct type is resolved
through one level of symbol lookup to its member list, each member type is
recursively encoded, and the result is a single bit-vector type whose width
is the sum of the encoded member widths; an array type is mapped to an array
type of the same size expression over the encoded element type. Recursion is
bounded by fuel, since recursive struct types are not expected by the spec;
`none` means the fuel was insufficient or a struct tag did not resolve. -/
def encode (ns : enc_namespacet) : Nat → enc_typet → Option enc_typet
  | 0, _ => none
  | fuel + 1, .structTag name =>
    match lookupComponents ns name with
    | none => none
    | some comps =>
      match encoded_members_width (fun t => encode ns fuel t) comps with
      | some w => some (.bv w)
      | none => none
  | fuel + 1, .arrayT elem size =>
    match encode ns fuel elem with
    | some e => some (.arrayT e size)
    | none => none
  | _ + 1, t => some t

/-- Iterated array construction: `nestArray [d1, d2, ...] t` is the array of
size `d1` of arrays of size `d2` of ... of `t`. -/
def nestArray : List Nat → enc_typet → enc_typet
  | [], t => t
  | d :: ds, t => .arrayT (nestArray ds t) d

/-- The widths of the encodings of the members of a component list. -/
def memberEncodedWidths (ns : enc_namespacet) (fuel : Nat)
    (comps : List (Nat × enc_typet)) : Option (List Nat) :=
  comps.mapM (fun c => (encode ns fuel c.2).bind flatWidth)

/-- A type that mentions no struct tag anywhere. -/
def struct_free : enc_typet → Bool
  | .signedbv _ => true
  | .unsignedbv _ => true
  | .bv _ => true
  | .structTag _ => false
  | .arrayT e _ => struct_free e

/-- Nesting depth of a type, used as a sufficient fuel bound. -/
def enc_typet.depth : enc_typet → Nat
  | .arrayT e _ => e.depth + 1
  | _ => 1

/-- The symbol table of the unit test `struct encoding of types`: a struct
named `my_structt` (name 0) with an 8-bit unsigned member `foo` and a 16-bit
signed member `bar`. -/
def test_ns : enc_namespacet :=
  [(0, [(0, .unsignedbv 8), (1, .signedbv 16)])]

/- ----------------------------------------------------------------- -/
/- BMC utilities: property statuses (bmc_util.h)                      -/
/- ----------------------------------------------------------------- -/

/-- The status of a property. -/
inductive property_statust where
  | NOT_CHECKED
  | UNKNOWN
  | PASS
  | FAIL
  | ERROR
deriving DecidableEq, Repr

/-- The property registry `propertiest`: property identifiers (modelled as
numbers) mapped to their current status. -/
abbrev propertiest : Type := List (Nat × property_statust)

/-- The current status of a property in the registry. -/
def statusOf (props : propertiest) (p : Nat) : Option property_statust :=
  (List.find? (fun e => e.1 = p) props).map (fun e => e.2)

/-- Update every property's status in place by a per-property function, as
the status-updating loops of the BMC utilities do. -/
def mapStatus (f : Nat → property_statust → property_statust)
    (props : propertiest) : propertiest :=
  props.map (fun e => (e.1, f e.1 e.2))

/-- The identifiers inserted into `updated_properties`: the properties whose
status an update changed. -/
def updatedIds (f : Nat → property_statust → property_statust)
    (props : propertiest) : List Nat :=
  (props.filter (fun e => f e.1 e.2 ≠ e.2)).map (fun e => e.1)

/-- Kinds of SSA steps in a `symex_target_equationt`. -/
inductive ssa_step_kindt where
  | ASSIGNMENT
  | ASSUME
  | ASSERT
  | SHARED_READ
  | SHARED_WRITE
deriving DecidableEq, Repr

/-- Step conditions, as far as the status updates inspect them: a constant
or a symbolic expression. -/
inductive ssa_exprt where
  | constant (b : Bool)
  | symbolic (n : Nat)
deriving DecidableEq, Repr

/-- `exprt::is_true`: a constant-true expression. -/
def ssa_exprt.is_true : ssa_exprt → Bool
  | .constant true => true
  | _ => false

/-- An SSA step of the equation: its kind, its condition, and the property
identifier it checks (relevant for ASSERT steps). -/
structure SSA_stept where
  kind : ssa_step_kindt
  cond : ssa_exprt
  property_id : Nat
deriving DecidableEq, Repr

/-- The properties whose ASSERT steps in the equation have constant-true
conditions. -/
def trivially_true_property_ids (equation : List SSA_stept) : List Nat :=
  (equation.filter (fun st => st.kind = .ASSERT ∧ st.cond.is_true = true)).map
    (fun st => st.property_id)

/-- Per-property effect of `update_status_of_not_checked_properties`
(modelled below). -/
def not_checked_to_pass (_ : Nat) (s : property_statust) : property_statust :=
  if s = .NOT_CHECKED then .PASS else s

/-- Per-property effect of `update_status_of_unknown_properties`
(modelled below). -/
def unknown_to_pass (_ : Nat) (s : property_statust) : property_statust :=
  if s = .UNKNOWN then .PASS else s

/-- Per-property status effect of `prepare_property_decider` (modelled
below): properties still to be checked become UNKNOWN. -/
def prepare_status (_ : Nat) (s : property_statust) : property_statust :=
  if s = .NOT_CHECKED then .UNKNOWN else s

/-- Per-property effect of
`update_properties_status_from_symex_target_equation` (modelled below): a
property whose ASSERT condition is constant true in the equation, and that
has not reached a terminal verdict, is set to PASS. -/
def syntactic_pass (tids : List Nat) (p : Nat) (s : property_statust) :
    property_statust :=
  if p ∈ tids ∧ (s = .NOT_CHECKED ∨ s = .UNKNOWN) then .PASS else s

/-- The result of the decision procedure for one conjecture, through the
narrow solver interface: satisfiable with a model, unsatisfiable, or a
solver error/timeout. -/
inductive decision_resultt where
  | D_SATISFIABLE (model : List (Nat × Bool))
  | D_UNSATISFIABLE
  | D_ERROR
deriving DecidableEq, Repr

/-- Per-property effect of `run_property_decider` (modelled below) on a
still-UNKNOWN property, given the solver's verdict on its conjecture:
satisfiable is FAIL, unsatisfiable is PASS (gated by `set_pass`, default
true in the source), solver error is ERROR. Properties not UNKNOWN are not
re-decided. -/
def decide_status (set_pass : Bool) (solver : Nat → decision_resultt)
    (p : Nat) (s : property_statust) : property_statust :=
  if s = .UNKNOWN then
    match solver p with
    | .D_SATISFIABLE _ => .FAIL
    | .D_UNSATISFIABLE => if set_pass then .PASS else .UNKNOWN
    | .D_ERROR => .ERROR
  else s

/-- Modelled from the spec: `update_status_of_not_checked_properties`
(implementation in goto-checker/bmc_util.cpp, not part of the excerpt; the
in-source doc comment reads "Sets the property status of NOT_CHECKED
properties to PASS"). Returns the updated registry and the set of updated
property identifiers. -/
def update_status_of_not_checked_properties (props : propertiest) :
    propertiest × List Nat :=
  (mapStatus not_checked_to_pass props, updatedIds not_checked_to_pass props)

/-- Modelled from the spec: `update_status_of_unknown_properties`
(implementation not part of the excerpt; the in-source doc comment reads
"Sets the property status of UNKNOWN properties to PASS", everything still
UNKNOWN at the end of the model checking algorithm is declared PASS). -/
def update_status_of_unknown_properties (props : propertiest) :
    propertiest × List Nat :=
  (mapStatus unknown_to_pass props, updatedIds unknown_to_pass props)

/-- Modelled from the spec: the syntactic shortcut
`update_properties_status_from_symex_target_equation` (implementation not
part of the excerpt; the in-source doc comment reads "Sets property status
to PASS for properties whose conditions are constant true in the
equation"). It takes no decision procedure: the update is purely syntactic
and involves no solver call. -/
def update_properties_status_from_symex_target_equation (props : propertiest)
    (equation : List SSA_stept) : propertiest × List Nat :=
  (mapStatus (syntactic_pass (trivially_true_property_ids equation)) props,
   updatedIds (syntactic_pass (trivially_true_property_ids equation)) props)

/-- Modelled from the spec: the status effect of `prepare_property_decider`
(implementation not part of the excerpt; its doc comment reads "Sets the
status of properties to be checked to UNKNOWN"). -/
def prepare_property_decider (props : propertiest) : propertiest :=
  mapStatus prepare_status props

/-- The outcome record of a solver run: the updated registry, the updated
property identifiers surfaced to the caller, and for each property found
FAIL the satisfying model retained for trace building. -/
structure decider_resultt where
  properties : propertiest
  updated_properties : List Nat
  retained_models : List (Nat × List (Nat × Bool))
deriving DecidableEq, Repr

/-- Modelled from the spec: `run_property_decider` (implementation not part
of the excerpt). Per the spec's Property Decider contract, one conjecture is
submitted per still-UNKNOWN property and the solver's verdict is mapped onto
the property's status by `decide_status`; satisfiable verdicts retain the
satisfying model for trace building; every property is decided from its own
verdict, so a solver error on one property does not abort the others. -/
def run_property_decider (set_pass : Bool) (solver : Nat → decision_resultt)
    (props : propertiest) : decider_resultt :=
  { properties := mapStatus (decide_status set_pass solver) props
    updated_properties := updatedIds (decide_status set_pass solver) props
    retained_models :=
      props.filterMap (fun e =>
        match e.2, solver e.1 with
        | .UNKNOWN, .D_SATISFIABLE m => some (e.1, m)
        | _, _ => none) }

/-- The operations of a single checking run that touch the property
registry. -/
inductive checker_opt where
  | not_checked_update
  | unknown_update
  | equation_update (equation : List SSA_stept)
  | prepare
  | run_decider (set_pass : Bool) (solver : Nat → decision_resultt)

/-- Apply one checking-run operation to the property registry. -/
def apply_op : checker_opt → propertiest → propertiest
  | .not_checked_update, props => (update_status_of_not_checked_properties props).1
  | .unknown_update, props => (update_status_of_unknown_properties props).1
  | .equation_update equation, props =>
    (update_properties_status_from_symex_target_equation props equation).1
  | .prepare, props => prepare_property_decider props
  | .run_decider set_pass solver, props =>
    (run_property_decider set_pass solver props).properties

/-- A terminal status: PASS, FAIL or ERROR. -/
def terminal (s : property_statust) : Bool :=
  s = .PASS ∨ s = .FAIL ∨ s = .ERROR

/-- The transitions allowed by the (amended) monotonic transition rule:
stay put, NOT_CHECKED to UNKNOWN or PASS, or UNKNOWN to PASS, FAIL or
ERROR. -/
def allowed_transition (s s' : property_statust) : Prop :=
  s = s' ∨
  (s = .NOT_CHECKED ∧ (s' = .UNKNOWN ∨ s' = .PASS)) ∨
  (s = .UNKNOWN ∧ (s' = .PASS ∨ s' = .FAIL ∨ s' = .ERROR))

/-- The per-property status function of each checking-run operation. -/
def op_status_fn : checker_opt → Nat → property_statust → property_statust
  | .not_checked_update => not_checked_to_pass
  | .unknown_update => unknown_to_pass
  | .equation_update equation => syntactic_pass (trivially_true_property_ids equation)
  | .prepare => prepare_status
  | .run_decider set_pass solver => decide_status set_pass solver

/-- Run a sequence of checking-run operations over the registry. -/
def run_ops (ops : List checker_opt) (props : propertiest) : propertiest :=
  ops.foldl (fun pr op => apply_op op pr) props

/- ----------------------------------------------------------------- -/
/- Theorems                                                           -/
/- ----------------------------------------------------------------- -/

/-- Sanity check mirroring the unit test `struct encoding of non-stuct type
is a no-op`. -/
theorem encode_test_non_struct : encode test_ns 1 (.signedbv 8) = some (.signedbv 8) := by
  decide

/-- Sanity check mirroring the unit test section `direct struct_tag_type
encoding`: the 8-bit plus 16-bit struct encodes to a 24-bit bit-vector. -/
theorem encode_test_struct_tag : encode test_ns 2 (.structTag 0) = some (.bv 24) := by
  decide

/-- Sanity check mirroring the unit test section `array of array of structs
encoding`. -/
theorem encode_test_array_of_array :
    encode test_ns 4 (.arrayT (.arrayT (.structTag 0) 4) 2) =
      some (.arrayT (.arrayT (.bv 24) 4) 2) := by
  decide

/-- C8: every assignment instruction has exactly two operands, and
`code_assignt::validate` succeeds exactly when the instruction has two
operands whose types are equal (so validation fails exactly when one of the
two conditions is violated). -/
theorem C8_assignment_operands_and_validate (code : gi_codet) :
    (∀ lhs rhs : gi_exprt, (code_assignt lhs rhs).operands.length = 2) ∧
    (code_assignt_default.operands.length = 2) ∧
    (code_assignt.validate code = .ok () ↔
      code.operands.length = 2 ∧ code.op0.type = code.op1.type) := by
  refine ⟨fun lhs rhs => rfl, rfl, ?_⟩
  by_cases h1 : code.operands.length = 2 <;>
    by_cases h2 : code.op0.type = code.op1.type <;>
      simp [code_assignt.validate, code_assignt.check, DATA_CHECK, h1, h2,
        Bind.bind, Except.bind]

/-- C10 counterexample: for the (type, top, bottom) constructor, a struct
type does not guarantee successful construction as the claim states it —
with both top and bottom set, the base constructor's documented assertion
fires and construction fails even though the type's id is ID_struct. -/
theorem C10_counterexample :
    (vs_typet.structT 0).id = .ID_struct ∧
    struct_abstract_objectt.from_type_top_bottom (.structT 0) true true = none := by
  decide

/-- C10 (amended): every constructor of `struct_abstract_objectt` requires a
struct type — for any non-struct type the assertion fails — and under the
precondition that the type's id is ID_struct construction succeeds, except
that the (type, top, bottom) constructor additionally requires that top and
bottom are not both true (the base constructor's documented assertion). -/
theorem C10_constructors_require_struct (t : vs_typet) (tp bttm : Bool)
    (e : vs_constant_exprt) :
    ((struct_abstract_objectt.from_type t).isSome ↔ t.id = .ID_struct) ∧
    ((struct_abstract_objectt.from_type_top_bottom t tp bttm).isSome ↔
      (t.id = .ID_struct ∧ ¬(tp = true ∧ bttm = true))) ∧
    ((struct_abstract_objectt.from_expr e).isSome ↔ e.type.id = .ID_struct) := by
  refine ⟨?_, ?_, ?_⟩
  · rw [struct_abstract_objectt.from_type]
    split_ifs with h <;> simp [h]
  · rw [struct_abstract_objectt.from_type_top_bottom]
    split_ifs with h <;> simp <;> cases tp <;> cases bttm <;> simp_all
  · rw [struct_abstract_objectt.from_expr]
    split_ifs with h <;> simp [h]

/-- The component loop of `clean_up` appends exactly the data members to the
data accumulator and exactly the method members to the methods accumulator,
keeping their original order. -/
theorem clean_up_components_eq (comps : List ct_componentt)
    (data fns : List ct_componentt) :
    clean_up_components comps (data, fns) =
      (data ++ comps.filter is_data_member,
       fns ++ comps.filter is_method_member) := by
  induction comps generalizing data fns with
  | nil => simp [clean_up_components]
  | cons c rest ih =>
    by_cases h1 : (c.is_static || c.is_type) = true
    · have h1' : c.is_static = true ∨ c.is_type = true := by simpa using h1
      have hd : is_data_member c = false := by
        rcases h1' with h | h <;> simp [is_data_member, h]
      have hm : is_method_member c = false := by
        rcases h1' with h | h <;> simp [is_method_member, h]
      simp [clean_up_components, h1, ih, List.filter_cons, hd, hm]
    · have hs : c.is_static = false := by
        cases hss : c.is_static
        · rfl
        · exact absurd (by simp [hss]) h1
      have hty : c.is_type = false := by
        cases htt : c.is_type
        · rfl
        · exact absurd (by simp [htt]) h1
      by_cases h2 : c.type_id = .ID_code
      · have hd : is_data_member c = false := by simp [is_data_member, hs, hty, h2]
        have hm : is_method_member c = true := by simp [is_method_member, hs, hty, h2]
        simp [clean_up_components, h1, h2, ih, List.filter_cons, hd, hm]
      · have hd : is_data_member c = true := by simp [is_data_member, hs, hty, h2]
        have hm : is_method_member c = false := by simp [is_method_member, hs, hty, h2]
        simp [clean_up_components, h1, h2, ih, List.filter_cons, hd, hm]

/-- C9: every struct or union type symbol that survives `clean_up` has its
original component list split without loss or reordering: the surviving
symbol's components are exactly the original non-static, non-type,
non-code-typed components in their original order, and its methods list is
exactly the original non-static, non-type, code-typed components in their
original order (static and type components are dropped from both). -/
theorem C9_clean_up_splits_components (deferred : List Nat)
    (table : List ct_symbolt) (s : ct_symbolt) (su : ct_struct_union_typet)
    (hmem : s ∈ table) (htype : s.type = .struct_union su)
    (hmethods : su.methods = [])
    (hkeep : ¬(s.is_template = true ∨ s.name ∈ deferred)) :
    ct_symbolt.mk s.name s.is_template
        (.struct_union ⟨su.components.filter is_data_member,
                        su.components.filter is_method_member⟩)
      ∈ clean_up deferred table := by
  apply List.mem_filterMap.mpr
  refine ⟨s, hmem, ?_⟩
  simp only [clean_up, htype, if_neg hkeep]
  have : clean_up_struct_union su =
      ⟨su.components.filter is_data_member,
       su.components.filter is_method_member⟩ := by
    simp [clean_up_struct_union, clean_up_components_eq, hmethods]
  rw [this]

/-- C9 witness: a concrete symbol table with one struct of a data member, a
method, a static member and a type member. -/
theorem C9_clean_up_splits_components_witness :
    ct_symbolt.mk 0 false
        (.struct_union ⟨[⟨1, .ID_bool, false, false⟩], [⟨2, .ID_code, false, false⟩]⟩)
      ∈ clean_up []
          [⟨0, false, .struct_union ⟨[⟨1, .ID_bool, false, false⟩,
              ⟨2, .ID_code, false, false⟩, ⟨3, .ID_bool, true, false⟩,
              ⟨4, .ID_code, false, true⟩], []⟩⟩] :=
  C9_clean_up_splits_components []
    [⟨0, false, .struct_union ⟨[⟨1, .ID_bool, false, false⟩,
        ⟨2, .ID_code, false, false⟩, ⟨3, .ID_bool, true, false⟩,
        ⟨4, .ID_code, false, true⟩], []⟩⟩]
    ⟨0, false, .struct_union ⟨[⟨1, .ID_bool, false, false⟩,
        ⟨2, .ID_code, false, false⟩, ⟨3, .ID_bool, true, false⟩,
        ⟨4, .ID_code, false, true⟩], []⟩⟩
    ⟨[⟨1, .ID_bool, false, false⟩, ⟨2, .ID_code, false, false⟩,
      ⟨3, .ID_bool, true, false⟩, ⟨4, .ID_code, false, true⟩], []⟩
    (by decide) rfl rfl (by decide)

/-- Unfolding of `encode` on an array type: the element type is encoded
recursively and the size is kept. -/
theorem encode_arrayT (ns : enc_namespacet) (fuel : Nat) (e : enc_typet)
    (size : Nat) :
    encode ns (fuel + 1) (.arrayT e size) =
      (encode ns fuel e).map (fun e' => .arrayT e' size) := by
  cases h : encode ns fuel e <;> simp [encode, h]

/-- If encoding every member of a component list yields the width list `ws`,
the loop summing encoded member widths returns the sum of `ws`. -/
theorem encoded_members_width_sum (enc : enc_typet → Option enc_typet)
    (comps : List (Nat × enc_typet)) (ws : List Nat)
    (h : comps.mapM (fun c => (enc c.2).bind flatWidth) = some ws) :
    encoded_members_width enc comps = some ws.sum := by
  induction comps generalizing ws with
  | nil =>
    simp only [List.mapM_nil, pure, Option.some.injEq] at h
    subst h
    rfl
  | cons c rest ih =>
    rw [List.mapM_cons] at h
    cases hw : (enc c.2).bind flatWidth with
    | none => rw [hw] at h; simp at h
    | some w =>
      rw [hw] at h
      cases hrest : List.mapM (fun c => (enc c.2).bind flatWidth) rest with
      | none => rw [hrest] at h; simp at h
      | some ws' =>
        rw [hrest] at h
        simp at h
        subst h
        simp [encoded_members_width, hw, ih ws' hrest]

/-- C3: for every struct type whose members encode to widths `ws`, the
encoder resolves the struct through the symbol table and returns a single
flat bit-vector type whose width is the sum of the encoded member widths. -/
theorem C3_struct_flattening_width (ns : enc_namespacet) (fuel : Nat)
    (name : Nat) (comps : List (Nat × enc_typet)) (ws : List Nat)
    (h1 : lookupComponents ns name = some comps)
    (h2 : memberEncodedWidths ns fuel comps = some ws) :
    encode ns (fuel + 1) (.structTag name) = some (.bv ws.sum) := by
  have hsum := encoded_members_width_sum (fun t => encode ns fuel t) comps ws h2
  simp [encode, h1, hsum]

/-- C3 witness: the struct of the unit test (8-bit unsigned `foo`, 16-bit
signed `bar`) encodes to a bit-vector of width 8 + 16 = 24. -/
theorem C3_struct_flattening_width_witness :
    lookupComponents test_ns 0 = some [(0, .unsignedbv 8), (1, .signedbv 16)] ∧
    memberEncodedWidths test_ns 1 [(0, .unsignedbv 8), (1, .signedbv 16)] = some [8, 16] ∧
    encode test_ns 2 (.structTag 0) = some (.bv 24) :=
  ⟨by decide, by decide,
   C3_struct_flattening_width test_ns 1 0 [(0, .unsignedbv 8), (1, .signedbv 16)]
     [8, 16] (by decide) (by decide)⟩

/-- C4: encoding distributes through array types at arbitrary nesting depth:
encoding the iterated array over dimensions `dims` of element type `t` is
the iterated array with the same size expressions over the encoding of
`t`. In particular, `encode (array t size) = array (encode t) size`. -/
theorem C4_array_encoding_distributes (ns : enc_namespacet) (dims : List Nat)
    (fuel : Nat) (t : enc_typet) :
    encode ns (dims.length + fuel) (nestArray dims t) =
      (encode ns fuel t).map (nestArray dims) := by
  induction dims with
  | nil =>
    cases h : encode ns fuel t <;> simp [nestArray, h]
  | cons d ds ih =>
    have hl : (d :: ds).length + fuel = (ds.length + fuel) + 1 := by
      simp [Nat.succ_add]
    rw [hl]
    show encode ns ((ds.length + fuel) + 1) (.arrayT (nestArray ds t) d) = _
    rw [encode_arrayT, ih]
    cases h : encode ns fuel t <;> simp [nestArray, h]

/-- C5 counterexample: an array of structs is a non-struct type on which the
encoder is not the identity — exactly as in the unit test, the array of five
`my_structt` encodes to an array of five 24-bit bit-vectors, not to itself. -/
theorem C5_counterexample :
    enc_typet.is_struct (.arrayT (.structTag 0) 5) = false ∧
    encode test_ns 3 (.arrayT (.structTag 0) 5) = some (.arrayT (.bv 24) 5) ∧
    encode test_ns 3 (.arrayT (.structTag 0) 5) ≠ some (.arrayT (.structTag 0) 5) := by
  decide

/-- C5 (amended): the encoder is the identity on every scalar / already-flat
bit-vector type and, more generally, on every type that contains no struct
type (given sufficient fuel for the nesting depth); the claim's broader
reading — identity on any non-struct type — fails on arrays of structs. -/
theorem C5_identity_on_struct_free (ns : enc_namespacet) (t : enc_typet)
    (hs : struct_free t = true) :
    ∀ fuel : Nat, t.depth ≤ fuel → encode ns fuel t = some t := by
  induction t with
  | signedbv w =>
    intro fuel hf
    cases fuel with
    | zero => exact absurd hf (by simp [enc_typet.depth])
    | succ f => simp [encode]
  | unsignedbv w =>
    intro fuel hf
    cases fuel with
    | zero => exact absurd hf (by simp [enc_typet.depth])
    | succ f => simp [encode]
  | bv w =>
    intro fuel hf
    cases fuel with
    | zero => exact absurd hf (by simp [enc_typet.depth])
    | succ f => simp [encode]
  | structTag name => simp [struct_free] at hs
  | arrayT e n ih =>
    intro fuel hf
    cases fuel with
    | zero => exact absurd hf (by simp [enc_typet.depth])
    | succ f =>
      have he : struct_free e = true := by simpa [struct_free] using hs
      have hd : e.depth ≤ f := by
        have := hf
        simp only [enc_typet.depth] at this
        omega
      rw [encode_arrayT, ih he f hd]
      rfl

/-- C5 amended witness: the encoder leaves the 8-bit signed bit-vector type
of the unit test unchanged. -/
theorem C5_identity_on_struct_free_witness :
    struct_free (.signedbv 8) = true ∧
    (enc_typet.signedbv 8).depth ≤ 1 ∧
    encode test_ns 1 (.signedbv 8) = some (.signedbv 8) :=
  ⟨by decide, by decide, C5_identity_on_struct_free test_ns (.signedbv 8) (by decide) 1 (by decide)⟩

/-- Status lookup after a per-property status update: the status of `p` is
the old status mapped through the update function at `p`. -/
theorem statusOf_mapStatus (f : Nat → property_statust → property_statust)
    (props : propertiest) (p : Nat) :
    statusOf (mapStatus f props) p = (statusOf props p).map (f p) := by
  induction props with
  | nil => rfl
  | cons e rest ih =>
    by_cases h : e.1 = p
    · simp [statusOf, mapStatus, List.find?_cons, h]
    · simpa [statusOf, mapStatus, List.find?_cons, h] using ih

/-- Every checking-run operation updates the registry entrywise by its
per-property status function. -/
theorem apply_op_eq (op : checker_opt) (props : propertiest) :
    apply_op op props = mapStatus (op_status_fn op) props := by
  cases op <;> rfl

/-- The per-property status function of every checking-run operation only
makes transitions allowed by the monotonic rule. -/
theorem op_status_fn_allowed (op : checker_opt) (p : Nat)
    (s : property_statust) : allowed_transition s (op_status_fn op p s) := by
  cases op with
  | not_checked_update =>
    cases s <;> simp [op_status_fn, not_checked_to_pass, allowed_transition]
  | unknown_update =>
    cases s <;> simp [op_status_fn, unknown_to_pass, allowed_transition]
  | equation_update equation =>
    show allowed_transition s (syntactic_pass (trivially_true_property_ids equation) p s)
    rw [syntactic_pass]
    split_ifs with h
    · rcases h.2 with h2 | h2 <;> subst h2 <;> simp [allowed_transition]
    · exact Or.inl rfl
  | prepare =>
    cases s <;> simp [op_status_fn, prepare_status, allowed_transition]
  | run_decider set_pass solver =>
    show allowed_transition s (decide_status set_pass solver p s)
    by_cases h : s = .UNKNOWN
    · subst h
      rw [decide_status, if_pos rfl]
      cases solver p with
      | D_SATISFIABLE m => simp [allowed_transition]
      | D_UNSATISFIABLE => cases set_pass <;> simp [allowed_transition]
      | D_ERROR => simp [allowed_transition]
    · rw [decide_status, if_neg h]
      exact Or.inl rfl

/-- A terminal status admits no allowed transition except staying put. -/
theorem terminal_allowed_eq (s s' : property_statust)
    (hterm : terminal s = true) (h : allowed_transition s s') : s' = s := by
  rcases h with h | h | h
  · exact h.symm
  · rw [h.1] at hterm; simp [terminal] at hterm
  · rw [h.1] at hterm; simp [terminal] at hterm

/-- C1 counterexample: `update_status_of_not_checked_properties` moves a
NOT_CHECKED property directly to PASS, not to UNKNOWN — refuting the claim
that a property in NOT_CHECKED transitions only to UNKNOWN. -/
theorem C1_counterexample :
    statusOf [(0, .NOT_CHECKED)] 0 = some .NOT_CHECKED ∧
    statusOf (apply_op .not_checked_update [(0, .NOT_CHECKED)]) 0 = some .PASS ∧
    property_statust.PASS ≠ property_statust.UNKNOWN := by
  decide

/-- C1 (amended): across every property-registry operation of a checking
run, a property in NOT_CHECKED transitions only to UNKNOWN (when included in
an equation to be solved) or directly to PASS (the not-checked update and
the trivially-true syntactic shortcut); a property in UNKNOWN transitions
only to PASS, FAIL or ERROR (a solver run, the syntactic shortcut, or the
end-of-run unknown-properties update); no other transitions occur, and PASS,
FAIL and ERROR are terminal. -/
theorem C1_monotonic_transitions (op : checker_opt) (props : propertiest)
    (p : Nat) (s s' : property_statust)
    (h1 : statusOf props p = some s)
    (h2 : statusOf (apply_op op props) p = some s') :
    allowed_transition s s' := by
  rw [apply_op_eq, statusOf_mapStatus, h1, Option.map_some'] at h2
  injection h2 with h3
  rw [← h3]
  exact op_status_fn_allowed op p s

/-- C1 witness: `prepare_property_decider` moves a NOT_CHECKED property to
UNKNOWN, an allowed transition. -/
theorem C1_monotonic_transitions_witness :
    statusOf [(0, .NOT_CHECKED)] 0 = some .NOT_CHECKED ∧
    statusOf (apply_op .prepare [(0, .NOT_CHECKED)]) 0 = some .UNKNOWN ∧
    allowed_transition .NOT_CHECKED .UNKNOWN :=
  ⟨by decide, by decide,
   C1_monotonic_transitions .prepare [(0, .NOT_CHECKED)] 0 .NOT_CHECKED .UNKNOWN
     (by decide) (by decide)⟩

/-- Unfolding the run of a sequence of operations one step. -/
theorem run_ops_cons (op : checker_opt) (rest : List checker_opt)
    (props : propertiest) :
    run_ops (op :: rest) props = run_ops rest (apply_op op props) := rfl

/-- C6: during a single checking run, no property ever transitions out of a
terminal status: once PASS, FAIL or ERROR, every further sequence of
registry operations (status updates, solver runs, incremental re-solves)
leaves the status unchanged. -/
theorem C6_terminal_statuses_stable (ops : List checker_opt)
    (props : propertiest) (p : Nat) (s : property_statust)
    (hterm : terminal s = true) (h : statusOf props p = some s) :
    statusOf (run_ops ops props) p = some s := by
  induction ops generalizing props with
  | nil => exact h
  | cons op rest ih =>
    rw [run_ops_cons]
    apply ih
    rw [apply_op_eq, statusOf_mapStatus, h, Option.map_some']
    rw [terminal_allowed_eq s (op_status_fn op p s) hterm (op_status_fn_allowed op p s)]

/-- C6 witness: a PASS property stays PASS across an unknown-properties
update followed by a solver run that errors. -/
theorem C6_terminal_statuses_stable_witness :
    terminal .PASS = true ∧
    statusOf [(0, .PASS)] 0 = some .PASS ∧
    statusOf
      (run_ops [.unknown_update, .run_decider true (fun _ => .D_ERROR)]
        [(0, .PASS)]) 0 = some .PASS :=
  ⟨by decide, by decide,
   C6_terminal_statuses_stable [.unknown_update, .run_decider true (fun _ => .D_ERROR)]
     [(0, .PASS)] 0 .PASS (by decide) (by decide)⟩

/-- A successful status lookup comes from an entry of the registry. -/
theorem statusOf_eq_some_mem (props : propertiest) (p : Nat)
    (s : property_statust) (h : statusOf props p = some s) :
    ∃ e, e ∈ props ∧ e.1 = p ∧ e.2 = s := by
  rw [statusOf] at h
  obtain ⟨e, he, he2⟩ := Option.map_eq_some'.mp h
  have hp := List.find?_some he
  exact ⟨e, List.mem_of_find?_eq_some he, by simpa using hp, he2⟩

/-- C2: for every still-UNKNOWN property submitted to the decision
procedure, the solver's verdict maps onto the property's status: satisfiable
is FAIL with the satisfying model retained for trace building;
unsatisfiable is PASS; a solver error or timeout is ERROR, surfaced in the
updated-properties set, and every other property is still decided from its
own verdict (checking is not aborted). -/
theorem C2_solver_result_mapping (solver : Nat → decision_resultt)
    (props : propertiest) (p : Nat)
    (h : statusOf props p = some .UNKNOWN) :
    (∀ m, solver p = .D_SATISFIABLE m →
      statusOf (run_property_decider true solver props).properties p = some .FAIL ∧
      (p, m) ∈ (run_property_decider true solver props).retained_models) ∧
    (solver p = .D_UNSATISFIABLE →
      statusOf (run_property_decider true solver props).properties p = some .PASS) ∧
    (solver p = .D_ERROR →
      statusOf (run_property_decider true solver props).properties p = some .ERROR ∧
      p ∈ (run_property_decider true solver props).updated_properties ∧
      ∀ q s', statusOf props q = some s' →
        statusOf (run_property_decider true solver props).properties q =
          some (decide_status true solver q s')) := by
  have hprops : ∀ q s', statusOf props q = some s' →
      statusOf (run_property_decider true solver props).properties q =
        some (decide_status true solver q s') := by
    intro q s' hq
    show statusOf (mapStatus (decide_status true solver) props) q = _
    rw [statusOf_mapStatus, hq, Option.map_some']
  obtain ⟨e, hmem, he1, he2⟩ := statusOf_eq_some_mem props p .UNKNOWN h
  refine ⟨?_, ?_, ?_⟩
  · intro m hm
    constructor
    · rw [hprops p .UNKNOWN h]
      simp [decide_status, hm]
    · show (p, m) ∈ props.filterMap _
      apply List.mem_filterMap.mpr
      refine ⟨e, hmem, ?_⟩
      rw [he1, he2, hm]
  · intro hu
    rw [hprops p .UNKNOWN h]
    simp [decide_status, hu]
  · intro herr
    refine ⟨?_, ?_, hprops⟩
    · rw [hprops p .UNKNOWN h]
      simp [decide_status, herr]
    · show p ∈ (props.filter _).map _
      apply List.mem_map.mpr
      refine ⟨e, ?_, he1⟩
      apply List.mem_filter.mpr
      refine ⟨hmem, ?_⟩
      rw [he1, he2]
      simp [decide_status, herr]

/-- C2 witness: a solver error on the only UNKNOWN property surfaces as
status ERROR. -/
theorem C2_solver_result_mapping_witness :
    statusOf [(0, .UNKNOWN)] 0 = some .UNKNOWN ∧
    statusOf (run_property_decider true (fun _ => .D_ERROR) [(0, .UNKNOWN)]).properties 0
      = some .ERROR :=
  ⟨by decide,
   ((C2_solver_result_mapping (fun _ => .D_ERROR) [(0, .UNKNOWN)] 0 (by decide)).2.2 rfl).1⟩

/-- C7: a property whose ASSERT step condition is constant true in the
equation has its status set to PASS by the syntactic update, which involves
no solver invocation (the modelled function takes no decision procedure). -/
theorem C7_trivially_true_sets_pass (equation : List SSA_stept)
    (props : propertiest) (p : Nat) (step : SSA_stept)
    (h1 : step ∈ equation) (h2 : step.kind = .ASSERT)
    (h3 : step.cond.is_true = true) (h4 : step.property_id = p)
    (h5 : statusOf props p = some .NOT_CHECKED ∨ statusOf props p = some .UNKNOWN) :
    statusOf (update_properties_status_from_symex_target_equation props equation).1 p
      = some .PASS := by
  have hp : p ∈ trivially_true_property_ids equation := by
    apply List.mem_map.mpr
    refine ⟨step, ?_, h4⟩
    apply List.mem_filter.mpr
    exact ⟨h1, by simp [h2, h3]⟩
  show statusOf (mapStatus (syntactic_pass (trivially_true_property_ids equation)) props) p = _
  rcases h5 with h5 | h5 <;>
    rw [statusOf_mapStatus, h5, Option.map_some'] <;>
      simp [syntactic_pass, hp]

/-- C7 witness: an equation with a single constant-true ASSERT step sets its
UNKNOWN property to PASS. -/
theorem C7_trivially_true_sets_pass_witness :
    SSA_stept.mk .ASSERT (.constant true) 0 ∈ [SSA_stept.mk .ASSERT (.constant true) 0] ∧
    statusOf
      (update_properties_status_from_symex_target_equation [(0, .UNKNOWN)]
        [SSA_stept.mk .ASSERT (.constant true) 0]).1 0 = some .PASS :=
  ⟨by decide,
   C7_trivially_true_sets_pass [SSA_stept.mk .ASSERT (.constant true) 0]
     [(0, .UNKNOWN)] 0 (SSA_stept.mk .ASSERT (.constant true) 0)
     (by decide) rfl rfl rfl (Or.inr (by decide))⟩
